import Mathlib

/-!
Verification of the turn-resolution and state-reconciliation engine of the
CryptoGenesis browser game.  The data model and operations below are a
shallow embedding of the TypeScript source: `types.ts` (GameStats, GameEvent,
GridSlot, GameState, GeminiResponse), `App.tsx` (INITIAL_STATS, INITIAL_GRID,
AVAILABLE_MODULES, handleLoadGame, handleStartGame, handlePurchaseModule,
handleSendMessage) and `services/geminiService.ts` (processTurn,
RESPONSE_SCHEMA).  JavaScript numbers are modelled as `Int` (idealized exact
integer arithmetic); `Math.floor(u * 0.1)` is modelled as floor division by
10; `x || 0` on an optional numeric field is modelled as `Option.getD 0`.
-/

/-- ModuleType from types.ts: miner | validator | rpc | firewall. -/
inductive ModuleType where
  | miner
  | validator
  | rpc
  | firewall
deriving DecidableEq, Repr

/-- statsEffect map on a module definition: a partial map of GameStats
fields (informational; never applied by the engine). -/
structure StatsEffect where
  funds : Option Int := none
  users : Option Int := none
  security : Option Int := none
  hype : Option Int := none
  techLevel : Option Int := none
  decentralization : Option Int := none
deriving DecidableEq, Repr

/-- InfrastructureModule from types.ts. -/
structure InfrastructureModule where
  id : String
  type : ModuleType
  name : String
  cost : Int
  maintenance : Int
  description : String
  statsEffect : StatsEffect
deriving DecidableEq, Repr

/-- GridSlot from types.ts: slot id plus at most one installed module. -/
structure GridSlot where
  id : Nat
  module : Option InfrastructureModule
deriving DecidableEq, Repr

/-- GameStats from types.ts. -/
structure GameStats where
  funds : Int
  users : Int
  security : Int
  hype : Int
  techLevel : Int
  decentralization : Int
  era : Int
deriving DecidableEq, Repr

/-- Event kinds of GameEvent in types.ts. -/
inductive EventKind where
  | narrative
  | choice
  | alert
  | success
  | failure
deriving DecidableEq, Repr

/-- GameEvent from types.ts. -/
structure GameEvent where
  id : String
  turn : Int
  narrative : String
  choices : Option (List String)
  type : EventKind
deriving DecidableEq, Repr

/-- GameSettings from types.ts (language kept as its code string). -/
structure GameSettings where
  projectName : String
  ticker : String
  founderName : String
  language : String
deriving DecidableEq, Repr

/-- The stats_update object of GeminiResponse in types.ts: every field
optional. -/
structure StatsUpdate where
  funds_change : Option Int := none
  users_change : Option Int := none
  security_change : Option Int := none
  hype_change : Option Int := none
  tech_level_change : Option Int := none
  decentralization_change : Option Int := none
deriving DecidableEq, Repr

/-- event_type of GeminiResponse in types.ts. -/
inductive EventType where
  | normal
  | crisis
  | opportunity
  | game_over
  | victory
deriving DecidableEq, Repr

/-- GeminiResponse from types.ts (the shape a schema-conforming oracle
reply decodes to). -/
structure GeminiResponse where
  narrative : String
  choices : List String
  stats_update : StatsUpdate
  event_type : EventType
deriving DecidableEq, Repr

/-- GameState from types.ts. -/
structure GameState where
  isStarted : Bool
  isLoading : Bool
  turnCount : Int
  settings : GameSettings
  stats : GameStats
  history : List GameEvent
  gameOver : Bool
  gameWon : Bool
  lastSaved : Option String
  infrastructure : List GridSlot
deriving DecidableEq, Repr

/-- INITIAL_STATS from App.tsx. -/
def INITIAL_STATS : GameStats :=
  { funds := 10000
    users := 1
    security := 50
    hype := 10
    techLevel := 10
    decentralization := 0
    era := 1 }

/-- INITIAL_GRID from App.tsx: `Array(12).fill(null).map((_, i) => ({ id: i, module: null }))`. -/
def INITIAL_GRID : List GridSlot :=
  (List.range 12).map (fun i => { id := i, module := none })

/-- AVAILABLE_MODULES from App.tsx (module definitions without an instance id). -/
def AVAILABLE_MODULES (t : ModuleType) : InfrastructureModule :=
  match t with
  | .miner =>
      { id := ""
        type := .miner
        name := "ASIC Miner X1"
        cost := 1500
        maintenance := 100
        description := "Generates funds via PoW."
        statsEffect := { funds := some 500, decentralization := some (-2) } }
  | .validator =>
      { id := ""
        type := .validator
        name := "Validator Node"
        cost := 2000
        maintenance := 50
        description := "Secures transactions."
        statsEffect := { security := some 5, decentralization := some 2 } }
  | .rpc =>
      { id := ""
        type := .rpc
        name := "RPC Cluster"
        cost := 3000
        maintenance := 200
        description := "Boosts network speed."
        statsEffect := { hype := some 4, techLevel := some 2 } }
  | .firewall =>
      { id := ""
        type := .firewall
        name := "Quantum Firewall"
        cost := 5000
        maintenance := 300
        description := "Hardened security layer."
        statsEffect := { security := some 10 } }

/-- The template-literal key of a module type, used in generated ids. -/
def moduleTypeKey (t : ModuleType) : String :=
  match t with
  | .miner => "miner"
  | .validator => "validator"
  | .rpc => "rpc"
  | .firewall => "firewall"

/-- JavaScript `x || 0` on an optional numeric field (undefined and 0 both
give 0). -/
def orZero (o : Option Int) : Int := o.getD 0

/-- Accumulator for the passive infrastructure effects computed in
handleSendMessage (`infraEffects`), initialised to
`{ funds: 0, security: 0, hype: 0, techLevel: 0 }`. -/
structure InfraEffects where
  funds : Int
  security : Int
  hype : Int
  techLevel : Int
deriving DecidableEq, Repr

/-- One step of the `forEach` loop over grid slots in handleSendMessage:
miner adds 150 funds, validator adds 1 security, rpc adds 1 hype; a
firewall (or an empty slot) contributes nothing. -/
def infraEffectsStep (acc : InfraEffects) (slot : GridSlot) : InfraEffects :=
  match slot.module with
  | none => acc
  | some m =>
      let a1 := if m.type = .miner then { acc with funds := acc.funds + 150 } else acc
      let a2 := if m.type = .validator then { a1 with security := a1.security + 1 } else a1
      if m.type = .rpc then { a2 with hype := a2.hype + 1 } else a2

/-- The passive infrastructure effects of handleSendMessage in App.tsx. -/
def infraEffects (grid : List GridSlot) : InfraEffects :=
  grid.foldl infraEffectsStep { funds := 0, security := 0, hype := 0, techLevel := 0 }

/-- The `newStats` merge of handleSendMessage in App.tsx: current stats plus
the oracle stats_update plus the passive infrastructure effects, clamped
once per field (`Math.max(0, ...)` for funds and users,
`Math.min(100, Math.max(0, ...))` for the four bounded fields); era is
untouched. -/
def mergeStats (stats : GameStats) (resp : GeminiResponse) (grid : List GridSlot) : GameStats :=
  let fx := infraEffects grid
  { stats with
    funds := max 0 (stats.funds + orZero resp.stats_update.funds_change + fx.funds)
    users := max 0 (stats.users + orZero resp.stats_update.users_change)
    security := min 100 (max 0 (stats.security + orZero resp.stats_update.security_change + fx.security))
    hype := min 100 (max 0 (stats.hype + orZero resp.stats_update.hype_change + fx.hype))
    techLevel := min 100 (max 0 (stats.techLevel + orZero resp.stats_update.tech_level_change))
    decentralization := min 100 (max 0 (stats.decentralization + orZero resp.stats_update.decentralization_change)) }

/-- The successful branch of handleSendMessage in App.tsx: append the
choice-type event recording the player input and the narrative event from
the oracle, merge stats,
increment turnCount, and set the terminal flags from event_type. -/
def resolveTurnSuccess (s : GameState) (message : String) (resp : GeminiResponse) : GameState :=
  let userEvent : GameEvent :=
    { id := "turn-" ++ toString s.turnCount ++ "-user"
      turn := s.turnCount
      narrative := message
      choices := none
      type := .choice }
  let newStats := mergeStats s.stats resp s.infrastructure
  let aiEvent : GameEvent :=
    { id := "turn-" ++ toString (s.turnCount + 1) ++ "-ai"
      turn := s.turnCount + 1
      narrative := resp.narrative
      choices := some resp.choices
      type := if resp.event_type = .game_over then .failure
              else if resp.event_type = .victory then .success
              else .narrative }
  { s with
    isLoading := false
    turnCount := s.turnCount + 1
    stats := newStats
    history := s.history ++ [userEvent, aiEvent]
    gameOver := decide (resp.event_type = .game_over)
    gameWon := decide (resp.event_type = .victory) }

/-- handlePurchaseModule from App.tsx: the only guard is
`if (gameState.stats.funds < moduleDef.cost) return;` — on success the cost
is deducted and the slot is overwritten with a fresh module instance whose
id is `type-Date.now()` (`now` models the timestamp).  The array index
assignment `newInfra[slotId] = ...` is modelled by `List.set`; every call
site passes the id of one of the 12 grid slots. -/
def handlePurchaseModule (s : GameState) (slotId : Nat) (t : ModuleType) (now : Int) : GameState :=
  let moduleDef := AVAILABLE_MODULES t
  if s.stats.funds < moduleDef.cost then s
  else
    { s with
      stats := { s.stats with funds := s.stats.funds - moduleDef.cost }
      infrastructure :=
        s.infrastructure.set slotId
          { id := slotId
            module := some { moduleDef with id := moduleTypeKey t ++ "-" ++ toString now } } }

/-- handleRemoveModule from App.tsx: frees the slot, no refund. -/
def handleRemoveModule (s : GameState) (slotId : Nat) : GameState :=
  { s with infrastructure := s.infrastructure.set slotId { id := slotId, module := none } }

/-- JavaScript `eraOverride || 1` where eraOverride is an optional number
(undefined and 0 are both falsy). -/
def eraOr1 (eraOverride : Option Int) : Int :=
  match eraOverride with
  | none => 1
  | some e => if e = 0 then 1 else e

/-- The `startingStats` computation of handleStartGame in App.tsx:
with keepStats (fork/evolve) the prior stats carry over except era is the
override, hype and security reset to 50, techLevel to 20, and users drop to
`Math.floor(users * 0.1)`; otherwise INITIAL_STATS with the era override. -/
def startingStats (prior : GameStats) (eraOverride : Option Int) (keepStats : Bool) : GameStats :=
  if keepStats then
    { prior with
      era := eraOr1 eraOverride
      hype := 50
      users := Int.fdiv prior.users 10
      funds := prior.funds
      security := 50
      techLevel := 20 }
  else
    { INITIAL_STATS with era := eraOr1 eraOverride }

/-- The synchronous part of handleStartGame in App.tsx (before the
initialization reply of the oracle arrives): guarded on non-empty settings fields and a
non-empty API key, it seeds the starting stats, keeps or clears history and
infrastructure per keepStats, and clears the terminal flags. -/
def handleStartGame (s : GameState) (settings : GameSettings) (effectiveKey : String)
    (eraOverride : Option Int) (keepStats : Bool) : GameState :=
  if settings.projectName = "" ∨ settings.ticker = "" ∨ settings.founderName = "" then s
  else if effectiveKey = "" then s
  else
    { s with
      isStarted := true
      isLoading := true
      stats := startingStats s.stats eraOverride keepStats
      settings := settings
      history := if keepStats then s.history else []
      gameOver := false
      gameWon := false
      infrastructure := if keepStats then s.infrastructure else INITIAL_GRID }

/-- The success continuation of handleStartGame in App.tsx: append the
initialization narrative as the turn-0 event and merge ONLY
`stats_update.funds_change` into the starting stats
(`funds: startingStats.funds + (response.stats_update.funds_change || 0)`),
with no clamping and ignoring every other change field. -/
def applyInitResponse (s : GameState) (startStats : GameStats) (keepStats : Bool)
    (newEvent : GameEvent) (resp : GeminiResponse) : GameState :=
  { s with
    isLoading := false
    history := (if keepStats then s.history else []) ++ [newEvent]
    stats := { startStats with funds := startStats.funds + orZero resp.stats_update.funds_change } }

/-- The serialized save record read back by handleLoadGame: an old save may
lack the infrastructure field, modelled as an Option. -/
structure SavedState where
  isStarted : Bool
  isLoading : Bool
  turnCount : Int
  settings : GameSettings
  stats : GameStats
  history : List GameEvent
  gameOver : Bool
  gameWon : Bool
  lastSaved : Option String
  infrastructure : Option (List GridSlot)
deriving DecidableEq, Repr

/-- handleLoadGame from App.tsx, final state after the (non-fatal) session
restore completes: `if (!parsed.infrastructure) parsed.infrastructure =
INITIAL_GRID;` then all parsed fields are adopted and isLoading ends false. -/
def handleLoadGame (saved : SavedState) : GameState :=
  { isStarted := saved.isStarted
    isLoading := false
    turnCount := saved.turnCount
    settings := saved.settings
    stats := saved.stats
    history := saved.history
    gameOver := saved.gameOver
    gameWon := saved.gameWon
    lastSaved := saved.lastSaved
    infrastructure := saved.infrastructure.getD INITIAL_GRID }

/-!
The oracle boundary of geminiService.ts.  `processTurn` returns
`JSON.parse(text) as GeminiResponse` — the cast performs no validation, so
the value crossing the boundary is, in general, an arbitrary JSON value; we
model it with a small JSON syntax tree.
-/

/-- A JSON value, as produced by a successful `JSON.parse`. -/
inductive Json where
  | jnull
  | jbool (b : Bool)
  | jnum (n : Int)
  | jstr (s : String)
  | jarr (items : List Json)
  | jobj (fields : List (String × Json))
deriving Repr

/-- Property lookup on a parsed JSON object. -/
def jlookup (fields : List (String × Json)) (key : String) : Option Json :=
  (fields.find? (fun p => p.1 == key)).map (fun p => p.2)

/-- A string-typed JSON value. -/
def decodeString : Json → Option String
  | .jstr s => some s
  | _ => none

/-- An array of strings (the `choices` field of RESPONSE_SCHEMA). -/
def decodeStringList : Json → Option (List String)
  | .jarr items => items.mapM decodeString
  | _ => none

/-- An optional integer property (the stats_update fields of
RESPONSE_SCHEMA: absent is fine, present must be an integer). -/
def decodeOptInt (fields : List (String × Json)) (key : String) : Option (Option Int) :=
  match jlookup fields key with
  | none => some none
  | some j =>
      match j with
      | .jnum n => some (some n)
      | _ => none

/-- The event_type enum of RESPONSE_SCHEMA in geminiService.ts. -/
def decodeEventType : Json → Option EventType
  | .jstr "normal" => some .normal
  | .jstr "crisis" => some .crisis
  | .jstr "opportunity" => some .opportunity
  | .jstr "game_over" => some .game_over
  | .jstr "victory" => some .victory
  | _ => none

/-- The stats_update object of RESPONSE_SCHEMA in geminiService.ts. -/
def decodeStatsUpdate : Json → Option StatsUpdate
  | .jobj fields => do
      let fc ← decodeOptInt fields "funds_change"
      let uc ← decodeOptInt fields "users_change"
      let sc ← decodeOptInt fields "security_change"
      let hc ← decodeOptInt fields "hype_change"
      let tc ← decodeOptInt fields "tech_level_change"
      let dc ← decodeOptInt fields "decentralization_change"
      some { funds_change := fc, users_change := uc, security_change := sc,
             hype_change := hc, tech_level_change := tc, decentralization_change := dc }
  | _ => none

/-- Conformance of a JSON value to RESPONSE_SCHEMA of geminiService.ts
(narrative string, choices string array, stats_update object, event_type
enum, all four required). -/
def decodeResponse : Json → Option GeminiResponse
  | .jobj fields => do
      let n ← (jlookup fields "narrative").bind decodeString
      let c ← (jlookup fields "choices").bind decodeStringList
      let su ← (jlookup fields "stats_update").bind decodeStatsUpdate
      let et ← (jlookup fields "event_type").bind decodeEventType
      some { narrative := n, choices := c, stats_update := su, event_type := et }
  | _ => none

/-- How one call to the oracle round-trip of processTurn can end, seen from the
try/catch in geminiService.ts: the sendMessage promise rejects, the reply
has no text (`if (!text) throw`), `JSON.parse` throws on malformed text, or
`JSON.parse` succeeds with some JSON value (which the `as GeminiResponse`
cast passes through unchecked). -/
inductive OracleOutcome where
  | transportError
  | noText
  | invalidJson
  | parsed (j : Json)

/-- The fallback object returned by the catch block of processTurn in
geminiService.ts, as the JSON value it is at runtime. -/
def FALLBACK_JSON : Json :=
  .jobj
    [ ("narrative", .jstr "Connection lost. The blockchain is congested. Try again."),
      ("choices", .jarr [.jstr "Retry"]),
      ("stats_update", .jobj []),
      ("event_type", .jstr "normal") ]

/-- processTurn from geminiService.ts: `if (!chatSession) throw` before the
try block (so that error propagates); inside the try, success returns the
parsed JSON value unvalidated and every thrown error is caught and replaced
by the fallback object. -/
def processTurn (sessionInitialized : Bool) (outcome : OracleOutcome) : Except String Json :=
  if sessionInitialized = false then .error "Game not initialized"
  else
    match outcome with
    | .parsed j => .ok j
    | _ => .ok FALLBACK_JSON

/-!
Specification-side definitions (written from the wording of the spec, for
refinement comparison with the code-derived definitions above).
-/

/-- A total stat delta in the sense of spec section 4.1: one integer per
field, unspecified fields 0. -/
structure StatDelta where
  funds : Int := 0
  users : Int := 0
  security : Int := 0
  hype : Int := 0
  techLevel : Int := 0
  decentralization : Int := 0
deriving DecidableEq, Repr

/-- Pointwise sum of two stat deltas. -/
def addDelta (a b : StatDelta) : StatDelta :=
  { funds := a.funds + b.funds
    users := a.users + b.users
    security := a.security + b.security
    hype := a.hype + b.hype
    techLevel := a.techLevel + b.techLevel
    decentralization := a.decentralization + b.decentralization }

/-- applyDelta as spec section 4.1 states it: funds and users floored
at 0; each bounded field clamped into [0,100]; one clamp per field. -/
def applyDelta (s : GameStats) (d : StatDelta) : GameStats :=
  { s with
    funds := max 0 (s.funds + d.funds)
    users := max 0 (s.users + d.users)
    security := min 100 (max 0 (s.security + d.security))
    hype := min 100 (max 0 (s.hype + d.hype))
    techLevel := min 100 (max 0 (s.techLevel + d.techLevel))
    decentralization := min 100 (max 0 (s.decentralization + d.decentralization)) }

/-- The oracle stats_update viewed as a total StatDelta (unspecified fields
default to 0). -/
def oracleDelta (resp : GeminiResponse) : StatDelta :=
  { funds := orZero resp.stats_update.funds_change
    users := orZero resp.stats_update.users_change
    security := orZero resp.stats_update.security_change
    hype := orZero resp.stats_update.hype_change
    techLevel := orZero resp.stats_update.tech_level_change
    decentralization := orZero resp.stats_update.decentralization_change }

/-- The fixed per-type per-turn passive contribution of spec section 4.2:
miner +150 funds, validator +1 security, rpc +1 hype, firewall 0. -/
def moduleTypeDelta : ModuleType → StatDelta
  | .miner => { funds := 150 }
  | .validator => { security := 1 }
  | .rpc => { hype := 1 }
  | .firewall => {}

/-- passiveEffectsForTurn as spec section 4.2 states it: the sum,
across all occupied slots, of the fixed per-type contribution. -/
def passiveEffectsForTurn (grid : List GridSlot) : StatDelta :=
  grid.foldr
    (fun slot acc =>
      match slot.module with
      | some m => addDelta (moduleTypeDelta m.type) acc
      | none => acc)
    {}

/-- Per-source clamping of funds as spec section 4.1 forbids it:
clamp after the oracle delta, then clamp again after the passive delta. -/
def clampPerSourceFunds (cur oracle passive : Int) : Int :=
  max 0 (max 0 (cur + oracle) + passive)

/-- The number of installed modules of a given type in a grid. -/
def countType (grid : List GridSlot) (t : ModuleType) : Nat :=
  grid.countP
    (fun slot =>
      match slot.module with
      | some m => decide (m.type = t)
      | none => false)

/-!
Concrete fixtures used in counterexamples and witnesses.
-/

/-- The typed form of the processTurn fallback object. -/
def FALLBACK_RESPONSE : GeminiResponse :=
  { narrative := "Connection lost. The blockchain is congested. Try again."
    choices := ["Retry"]
    stats_update := {}
    event_type := .normal }

/-- A reply that parses as JSON but does not conform to RESPONSE_SCHEMA
(an object carrying only a narrative, missing the other required fields). -/
def nonConformingReply : Json :=
  .jobj [("narrative", .jstr "lorem")]

/-- A grid slot holding a freshly instantiated module of the given type. -/
def installed (t : ModuleType) (slotId : Nat) (instanceId : String) : GridSlot :=
  { id := slotId, module := some { AVAILABLE_MODULES t with id := instanceId } }

/-- An empty grid slot. -/
def emptySlot (slotId : Nat) : GridSlot :=
  { id := slotId, module := none }

/-- Example settings. -/
def baseSettings : GameSettings :=
  { projectName := "Bitcoin", ticker := "BTC", founderName := "Satoshi", language := "en" }

/-- A 12-slot grid with a miner installed in slot 0 and the rest empty. -/
def gridWithMinerAt0 : List GridSlot :=
  installed .miner 0 "m1" :: (List.range 11).map (fun i => emptySlot (i + 1))

/-- A running game whose slot 0 is occupied and whose funds are 10000. -/
def occupiedState : GameState :=
  { isStarted := true
    isLoading := false
    turnCount := 3
    settings := baseSettings
    stats := { INITIAL_STATS with funds := 10000 }
    history := []
    gameOver := false
    gameWon := false
    lastSaved := none
    infrastructure := gridWithMinerAt0 }

/-- The same game with funds lowered to 1000 (cannot afford any module). -/
def poorState : GameState :=
  { occupiedState with stats := { occupiedState.stats with funds := 1000 } }

/-- Grid holding two miners then a validator. -/
def gridMMV : List GridSlot :=
  [installed .miner 0 "m1", installed .miner 1 "m2", installed .validator 2 "v1"]

/-- The same three modules in a different slot order. -/
def gridVMM : List GridSlot :=
  [installed .validator 2 "v1", installed .miner 0 "m1", installed .miner 1 "m2"]

/-- Stats with prior funds 100 (for the double-clamp comparison). -/
def c2Stats : GameStats :=
  { INITIAL_STATS with funds := 100 }

/-- An oracle reply whose only delta is funds_change = -200. -/
def c2Resp : GeminiResponse :=
  { narrative := "ok"
    choices := []
    stats_update := { funds_change := some (-200) }
    event_type := .normal }

/-- A grid holding a single miner. -/
def c2Grid : List GridSlot :=
  [installed .miner 0 "m1"]

/-- A Victory-state game ready to fork: 2,000,000 users, era 1. -/
def forkState : GameState :=
  { isStarted := true
    isLoading := false
    turnCount := 40
    settings := baseSettings
    stats :=
      { funds := 123456
        users := 2000000
        security := 77
        hype := 95
        techLevel := 60
        decentralization := 30
        era := 1 }
    history :=
      [ { id := "turn-40-ai", turn := 40, narrative := "You won.", choices := none, type := .success } ]
    gameOver := false
    gameWon := true
    lastSaved := none
    infrastructure := gridWithMinerAt0 }

/-- A persisted record lacking the infrastructure field. -/
def legacySave : SavedState :=
  { isStarted := true
    isLoading := false
    turnCount := 7
    settings := baseSettings
    stats := { INITIAL_STATS with funds := 4242, users := 999 }
    history :=
      [ { id := "turn-7-ai", turn := 7, narrative := "Block mined.", choices := some ["HODL"], type := .narrative } ]
    gameOver := false
    gameWon := false
    lastSaved := some "2024-01-01T00:00:00.000Z"
    infrastructure := none }

/-- An initialization reply with a large negative funds_change and nonzero
values in every other change field. -/
def negInitResp : GeminiResponse :=
  { narrative := "init"
    choices := ["a"]
    stats_update :=
      { funds_change := some (-20000)
        users_change := some 777
        security_change := some 50
        hype_change := some 50
        tech_level_change := some 50
        decentralization_change := some 50 }
    event_type := .normal }

/-- The turn-0 history event built from an initialization reply. -/
def initEvent : GameEvent :=
  { id := "turn-1-init-0", turn := 0, narrative := "init", choices := some ["a"], type := .narrative }

/-!
Helper lemmas: the passive-effect folds are characterised by per-type
module counts.
-/

/-- The handleSendMessage forEach accumulator, characterised by counts. -/
theorem foldl_infraEffectsStep (grid : List GridSlot) (acc : InfraEffects) :
    grid.foldl infraEffectsStep acc =
      { funds := acc.funds + 150 * (countType grid .miner : Int)
        security := acc.security + (countType grid .validator : Int)
        hype := acc.hype + (countType grid .rpc : Int)
        techLevel := acc.techLevel } := by
  induction grid generalizing acc with
  | nil => simp [countType]
  | cons slot rest ih =>
    rw [List.foldl_cons, ih]
    cases hm : slot.module with
    | none =>
      simp [infraEffectsStep, hm, countType, List.countP_cons]
    | some m =>
      cases ht : m.type <;>
        simp [infraEffectsStep, hm, ht, countType, List.countP_cons] <;>
        omega

/-- infraEffects of App.tsx, characterised by per-type counts; in
particular its techLevel component is always 0. -/
theorem infraEffects_eq_counts (grid : List GridSlot) :
    infraEffects grid =
      { funds := 150 * (countType grid .miner : Int)
        security := (countType grid .validator : Int)
        hype := (countType grid .rpc : Int)
        techLevel := 0 } := by
  simpa using foldl_infraEffectsStep grid { funds := 0, security := 0, hype := 0, techLevel := 0 }

/-- The spec-side passiveEffectsForTurn, characterised by the same counts. -/
theorem passiveEffectsForTurn_eq_counts (grid : List GridSlot) :
    passiveEffectsForTurn grid =
      { funds := 150 * (countType grid .miner : Int)
        security := (countType grid .validator : Int)
        hype := (countType grid .rpc : Int) } := by
  induction grid with
  | nil => simp [passiveEffectsForTurn, countType]
  | cons slot rest ih =>
    cases hm : slot.module with
    | none =>
      simp [passiveEffectsForTurn, hm, countType, List.countP_cons] at ih ⊢
      simpa [hm] using ih
    | some m =>
      cases ht : m.type <;>
        simp [passiveEffectsForTurn, hm, ht, countType, List.countP_cons,
          addDelta, moduleTypeDelta] at ih ⊢ <;>
        simp [ih] <;> omega

/-!
Claim theorems.
-/

/-- C1: for every current stat vector and every pair of deltas (oracle
stats_update and passive infrastructure effects), the merged stats of a
resolved turn have security, hype, techLevel and decentralization in
[0,100] and funds and users at least 0, however extreme the deltas. -/
theorem claim_C1_merge_stays_in_bounds (s : GameStats) (resp : GeminiResponse)
    (grid : List GridSlot) :
    0 ≤ (mergeStats s resp grid).security ∧ (mergeStats s resp grid).security ≤ 100 ∧
    0 ≤ (mergeStats s resp grid).hype ∧ (mergeStats s resp grid).hype ≤ 100 ∧
    0 ≤ (mergeStats s resp grid).techLevel ∧ (mergeStats s resp grid).techLevel ≤ 100 ∧
    0 ≤ (mergeStats s resp grid).decentralization ∧
    (mergeStats s resp grid).decentralization ≤ 100 ∧
    0 ≤ (mergeStats s resp grid).funds ∧ 0 ≤ (mergeStats s resp grid).users := by
  simp only [mergeStats]
  omega

/-- C2: the turn merge computes, for every field, clamp(current + oracle
delta + passive delta) with exactly one clamp applied after summing —
i.e. it coincides with the applyDelta of the spec on the summed deltas — and
per-source clamping would differ on some input (prior funds 100, oracle
-200, one miner +150: sum-first gives 50, per-source would give 150). -/
theorem claim_C2_single_clamp_after_summing :
    (∀ (s : GameStats) (resp : GeminiResponse) (grid : List GridSlot),
        mergeStats s resp grid =
          applyDelta s (addDelta (oracleDelta resp) (passiveEffectsForTurn grid))) ∧
    (mergeStats c2Stats c2Resp c2Grid).funds ≠
      clampPerSourceFunds c2Stats.funds (orZero c2Resp.stats_update.funds_change)
        (passiveEffectsForTurn c2Grid).funds := by
  constructor
  · intro s resp grid
    obtain ⟨f, u, sec, hy, t, d, e⟩ := s
    simp [mergeStats, applyDelta, addDelta, oracleDelta, infraEffects_eq_counts,
      passiveEffectsForTurn_eq_counts]
    omega
  · decide

/-- C10: after a resolved turn the terminal flags are set from the
single-valued event_type (gameOver from game_over, gameWon from victory),
so they are never both true. -/
theorem claim_C10_terminal_flags_exclusive (s : GameState) (message : String)
    (resp : GeminiResponse) :
    (resolveTurnSuccess s message resp).gameOver = decide (resp.event_type = .game_over) ∧
    (resolveTurnSuccess s message resp).gameWon = decide (resp.event_type = .victory) ∧
    ((resolveTurnSuccess s message resp).gameOver &&
      (resolveTurnSuccess s message resp).gameWon) = false := by
  refine ⟨rfl, rfl, ?_⟩
  simp only [resolveTurnSuccess]
  cases resp.event_type <;> simp

/-- C3 counterexample: a reply that parses as JSON but does not conform to
the response schema is NOT replaced by the fallback — processTurn returns
it as-is (the `as GeminiResponse` cast performs no validation), refuting
the claim that every malformed/non-conforming reply yields the fallback. -/
theorem claim_C3_counterexample :
    processTurn true (.parsed nonConformingReply) = .ok nonConformingReply ∧
    decodeResponse nonConformingReply = none ∧
    nonConformingReply ≠ FALLBACK_JSON := by
  refine ⟨rfl, rfl, ?_⟩
  simp [nonConformingReply, FALLBACK_JSON]

/-- C3 amended: when the oracle round-trip fails in transport, returns no
text, or returns text that is not parseable JSON, processTurn swallows the
failure and returns the fallback object — whose decoded form has the
connection-lost narrative, the single choice Retry, an empty stats_update
and event_type normal; a reply that does parse as JSON is returned
unvalidated, whatever its shape. -/
theorem claim_C3_fallback_on_failure :
    processTurn true .transportError = .ok FALLBACK_JSON ∧
    processTurn true .noText = .ok FALLBACK_JSON ∧
    processTurn true .invalidJson = .ok FALLBACK_JSON ∧
    decodeResponse FALLBACK_JSON = some FALLBACK_RESPONSE ∧
    FALLBACK_RESPONSE.narrative = "Connection lost. The blockchain is congested. Try again." ∧
    FALLBACK_RESPONSE.choices = ["Retry"] ∧
    FALLBACK_RESPONSE.stats_update = {} ∧
    FALLBACK_RESPONSE.event_type = .normal ∧
    (∀ j : Json, processTurn true (.parsed j) = .ok j) :=
  ⟨rfl, rfl, rfl, rfl, rfl, rfl, rfl, rfl, fun _ => rfl⟩

/-- C4 counterexample: slot 0 is occupied by a miner, yet purchasing a
validator into slot 0 succeeds — funds drop from 10000 to 8000 and the
occupant is overwritten — refuting the claim that a purchase into an
occupied slot is rejected with no state change. -/
theorem claim_C4_counterexample :
    occupiedState.infrastructure[0]? = some (installed .miner 0 "m1") ∧
    (handlePurchaseModule occupiedState 0 .validator 99).stats.funds = 8000 ∧
    occupiedState.stats.funds = 10000 ∧
    (handlePurchaseModule occupiedState 0 .validator 99).infrastructure[0]? =
      some { id := 0,
             module := some { AVAILABLE_MODULES .validator with id := "validator-99" } } ∧
    handlePurchaseModule occupiedState 0 .validator 99 ≠ occupiedState := by
  refine ⟨rfl, by decide, rfl, by decide, ?_⟩
  decide

/-- C4 amended: a purchase is rejected (leaving the whole state unchanged)
exactly when funds < cost; neither slot occupancy nor the slot id is
checked — with sufficient funds the cost is deducted and the slot is
overwritten with the new module, whatever it held before. -/
theorem claim_C4_purchase_checks_funds_only (s : GameState) (slotId : Nat)
    (t : ModuleType) (now : Int) :
    (s.stats.funds < (AVAILABLE_MODULES t).cost → handlePurchaseModule s slotId t now = s) ∧
    ((AVAILABLE_MODULES t).cost ≤ s.stats.funds →
      (handlePurchaseModule s slotId t now).stats.funds
          = s.stats.funds - (AVAILABLE_MODULES t).cost ∧
      (handlePurchaseModule s slotId t now).infrastructure =
        s.infrastructure.set slotId
          { id := slotId,
            module := some { AVAILABLE_MODULES t with
                               id := moduleTypeKey t ++ "-" ++ toString now } }) := by
  constructor
  · intro h
    simp [handlePurchaseModule, h]
  · intro h
    have h' : ¬ s.stats.funds < (AVAILABLE_MODULES t).cost := not_lt.mpr h
    simp [handlePurchaseModule, h']

/-- C4 amended witness at concrete inputs: a miner is unaffordable at 1000
funds (state unchanged); a validator bought into occupied slot 0 deducts
its 2000 cost. -/
theorem claim_C4_purchase_checks_funds_only_witness :
    handlePurchaseModule poorState 3 .miner 7 = poorState ∧
    (handlePurchaseModule occupiedState 0 .validator 99).stats.funds = 8000 := by
  constructor
  · exact (claim_C4_purchase_checks_funds_only poorState 3 .miner 7).1 (by decide)
  · exact ((claim_C4_purchase_checks_funds_only occupiedState 0 .validator 99).2 (by decide)).1

/-- C5: a purchase with funds < cost is rejected leaving the entire state
unchanged; with funds >= cost the module is installed in the target slot
(of the 12-slot grid) and funds decrease by exactly the cost, with every
other stat field untouched. -/
theorem claim_C5_purchase_deducts_exact_cost (s : GameState) (slotId : Nat)
    (t : ModuleType) (now : Int) :
    (s.stats.funds < (AVAILABLE_MODULES t).cost → handlePurchaseModule s slotId t now = s) ∧
    ((AVAILABLE_MODULES t).cost ≤ s.stats.funds → slotId < s.infrastructure.length →
      (handlePurchaseModule s slotId t now).stats.funds
          = s.stats.funds - (AVAILABLE_MODULES t).cost ∧
      (handlePurchaseModule s slotId t now).infrastructure[slotId]? =
        some { id := slotId,
               module := some { AVAILABLE_MODULES t with
                                  id := moduleTypeKey t ++ "-" ++ toString now } } ∧
      (handlePurchaseModule s slotId t now).stats.users = s.stats.users ∧
      (handlePurchaseModule s slotId t now).stats.security = s.stats.security ∧
      (handlePurchaseModule s slotId t now).stats.hype = s.stats.hype ∧
      (handlePurchaseModule s slotId t now).stats.techLevel = s.stats.techLevel ∧
      (handlePurchaseModule s slotId t now).stats.decentralization = s.stats.decentralization ∧
      (handlePurchaseModule s slotId t now).stats.era = s.stats.era) := by
  constructor
  · intro h
    simp [handlePurchaseModule, h]
  · intro h hlen
    have h' : ¬ s.stats.funds < (AVAILABLE_MODULES t).cost := not_lt.mpr h
    refine ⟨by simp [handlePurchaseModule, h'], ?_, by simp [handlePurchaseModule, h'],
      by simp [handlePurchaseModule, h'], by simp [handlePurchaseModule, h'],
      by simp [handlePurchaseModule, h'], by simp [handlePurchaseModule, h'],
      by simp [handlePurchaseModule, h']⟩
    simp only [handlePurchaseModule, h', if_false]
    exact List.getElem?_set_eq_of_lt _ hlen

/-- C5 witness at the example given in the spec: at funds 1000 a miner (cost 1500)
is rejected and the state is untouched; at funds 10000 a miner purchase
into the empty slot 1 leaves exactly 8500 funds and installs it there. -/
theorem claim_C5_purchase_deducts_exact_cost_witness :
    handlePurchaseModule poorState 0 .miner 7 = poorState ∧
    (handlePurchaseModule occupiedState 1 .miner 7).stats.funds = 8500 ∧
    (handlePurchaseModule occupiedState 1 .miner 7).infrastructure[1]? =
      some { id := 1,
             module := some { AVAILABLE_MODULES .miner with id := "miner-7" } } := by
  refine ⟨?_, ?_, ?_⟩
  · exact (claim_C5_purchase_deducts_exact_cost poorState 0 .miner 7).1 (by decide)
  · exact ((claim_C5_purchase_deducts_exact_cost occupiedState 1 .miner 7).2
      (by decide) (by decide)).1
  · exact ((claim_C5_purchase_deducts_exact_cost occupiedState 1 .miner 7).2
      (by decide) (by decide)).2.1

/-- C6: the per-turn passive effect is the sum over occupied slots of the
fixed per-type contribution (miner +150 funds, validator +1 security,
rpc +1 hype, firewall nothing), hence a function of the module-type counts
alone — invariant under any permutation of the slots — and a grid holding
two miners and a validator yields exactly funds +300, security +1. -/
theorem claim_C6_passive_effects_additive :
    (∀ grid : List GridSlot,
        infraEffects grid =
          { funds := 150 * (countType grid .miner : Int)
            security := (countType grid .validator : Int)
            hype := (countType grid .rpc : Int)
            techLevel := 0 }) ∧
    (∀ g g' : List GridSlot, g.Perm g' → infraEffects g = infraEffects g') ∧
    infraEffects gridMMV = { funds := 300, security := 1, hype := 0, techLevel := 0 } := by
  refine ⟨infraEffects_eq_counts, ?_, by decide⟩
  intro g g' hp
  rw [infraEffects_eq_counts, infraEffects_eq_counts]
  simp only [countType, hp.countP_eq]

/-- C6 witness: the two orderings of {miner, miner, validator} give the
same passive effects. -/
theorem claim_C6_passive_effects_additive_witness :
    infraEffects gridMMV = infraEffects gridVMM :=
  claim_C6_passive_effects_additive.2.1 gridMMV gridVMM (by decide)

/-- C7: the fork-and-evolve start (handleStartGame with carry, called with
the incremented era as every fork call site does) yields users = floor of
a tenth of the prior users, hype 50, security 50, techLevel 20, funds
unchanged, era incremented by one, and preserves history and
infrastructure. -/
theorem claim_C7_fork_and_evolve (s : GameState) (settings : GameSettings) (key : String)
    (hp : settings.projectName ≠ "") (ht : settings.ticker ≠ "")
    (hf : settings.founderName ≠ "") (hk : key ≠ "") (he : 0 < s.stats.era) :
    (handleStartGame s settings key (some (s.stats.era + 1)) true).stats.users
        = Int.fdiv s.stats.users 10 ∧
    (handleStartGame s settings key (some (s.stats.era + 1)) true).stats.hype = 50 ∧
    (handleStartGame s settings key (some (s.stats.era + 1)) true).stats.security = 50 ∧
    (handleStartGame s settings key (some (s.stats.era + 1)) true).stats.techLevel = 20 ∧
    (handleStartGame s settings key (some (s.stats.era + 1)) true).stats.funds
        = s.stats.funds ∧
    (handleStartGame s settings key (some (s.stats.era + 1)) true).stats.era
        = s.stats.era + 1 ∧
    (handleStartGame s settings key (some (s.stats.era + 1)) true).history = s.history ∧
    (handleStartGame s settings key (some (s.stats.era + 1)) true).infrastructure
        = s.infrastructure := by
  have hz : ¬ s.stats.era + 1 = 0 := by omega
  simp [handleStartGame, startingStats, eraOr1, hp, ht, hf, hk, hz]

/-- C7 witness: forking the concrete Victory state with 2,000,000 users and
era 1 gives 200,000 users, era 2, funds kept at 123456, and the prior
history and grid. -/
theorem claim_C7_fork_and_evolve_witness :
    (handleStartGame forkState baseSettings "k" (some (forkState.stats.era + 1)) true).stats.users
        = 200000 ∧
    (handleStartGame forkState baseSettings "k" (some (forkState.stats.era + 1)) true).stats.era
        = 2 ∧
    (handleStartGame forkState baseSettings "k" (some (forkState.stats.era + 1)) true).stats.funds
        = 123456 ∧
    (handleStartGame forkState baseSettings "k" (some (forkState.stats.era + 1)) true).history
        = forkState.history := by
  have h := claim_C7_fork_and_evolve forkState baseSettings "k"
    (by decide) (by decide) (by decide) (by decide) (by decide)
  refine ⟨?_, ?_, ?_, h.2.2.2.2.2.2.1⟩
  · rw [h.1]; decide
  · rw [h.2.2.2.2.2.1]; decide
  · rw [h.2.2.2.2.1]; decide

/-- C8: loading a persisted record that lacks the infrastructure field
yields the default empty 12-slot grid (slots 0..11, each module-free)
instead of failing, and restores every other persisted field as saved. -/
theorem claim_C8_load_defaults_missing_infrastructure (saved : SavedState)
    (h : saved.infrastructure = none) :
    (handleLoadGame saved).infrastructure = INITIAL_GRID ∧
    INITIAL_GRID =
      [emptySlot 0, emptySlot 1, emptySlot 2, emptySlot 3, emptySlot 4, emptySlot 5,
       emptySlot 6, emptySlot 7, emptySlot 8, emptySlot 9, emptySlot 10, emptySlot 11] ∧
    (handleLoadGame saved).stats = saved.stats ∧
    (handleLoadGame saved).history = saved.history ∧
    (handleLoadGame saved).settings = saved.settings ∧
    (handleLoadGame saved).turnCount = saved.turnCount ∧
    (handleLoadGame saved).gameOver = saved.gameOver ∧
    (handleLoadGame saved).gameWon = saved.gameWon ∧
    (handleLoadGame saved).lastSaved = saved.lastSaved ∧
    (handleLoadGame saved).isStarted = saved.isStarted := by
  refine ⟨by simp [handleLoadGame, h], by decide, rfl, rfl, rfl, rfl, rfl, rfl, rfl, rfl⟩

/-- C8 witness: loading the concrete legacy save (no infrastructure field)
gives the default grid and keeps its stats. -/
theorem claim_C8_load_defaults_missing_infrastructure_witness :
    (handleLoadGame legacySave).infrastructure = INITIAL_GRID ∧
    (handleLoadGame legacySave).stats = legacySave.stats :=
  ⟨(claim_C8_load_defaults_missing_infrastructure legacySave rfl).1,
   (claim_C8_load_defaults_missing_infrastructure legacySave rfl).2.2.1⟩

/-- C9: of the stats_update in the initialization reply only funds_change is
applied — funds become startingStats.funds + funds_change with no lower
clamp (the concrete reply drives funds to -10000), while every other
change field is ignored. -/
theorem claim_C9_init_merge_funds_only :
    (∀ (s : GameState) (startStats : GameStats) (keepStats : Bool) (ev : GameEvent)
        (resp : GeminiResponse),
      (applyInitResponse s startStats keepStats ev resp).stats.funds
          = startStats.funds + orZero resp.stats_update.funds_change ∧
      (applyInitResponse s startStats keepStats ev resp).stats.users = startStats.users ∧
      (applyInitResponse s startStats keepStats ev resp).stats.security = startStats.security ∧
      (applyInitResponse s startStats keepStats ev resp).stats.hype = startStats.hype ∧
      (applyInitResponse s startStats keepStats ev resp).stats.techLevel
          = startStats.techLevel ∧
      (applyInitResponse s startStats keepStats ev resp).stats.decentralization
          = startStats.decentralization ∧
      (applyInitResponse s startStats keepStats ev resp).stats.era = startStats.era) ∧
    (applyInitResponse occupiedState INITIAL_STATS false initEvent negInitResp).stats.funds
        = -10000 ∧
    (applyInitResponse occupiedState INITIAL_STATS false initEvent negInitResp).stats.users
        = 1 ∧
    (applyInitResponse occupiedState INITIAL_STATS false initEvent negInitResp).stats.security
        = 50 := by
  refine ⟨?_, by decide, by decide, by decide⟩
  intro s startStats keepStats ev resp
  simp [applyInitResponse]

/-- C2 witness: the refinement instantiated at the concrete double-clamp
example input. -/
theorem claim_C2_single_clamp_after_summing_witness :
    mergeStats c2Stats c2Resp c2Grid =
      applyDelta c2Stats (addDelta (oracleDelta c2Resp) (passiveEffectsForTurn c2Grid)) :=
  claim_C2_single_clamp_after_summing.1 c2Stats c2Resp c2Grid
